import Mathlib

/-!
# Verification of the pgsd-build installer pipeline and hybrid-ISO MBR writer

Shallow embedding of the correctness-sensitive parts of the `pgsd-build`
repository:

* `installer/internal/install/install.go` — the `Install` pipeline
  (`validateConfig`, `checkRequirements`, `partitionDisk`,
  `createEFIFilesystem`, `createZFSPool`, `extractZFSStream`,
  `copyEFIPartition`, `installBootloader`, `finalizeInstallation`,
  `readPipe`), embedded as pure functions over an explicit environment
  `Env` that records the filesystem contents, the available external
  tools, the effective uid, and the outcome / diagnostic text of every
  external command.  Each stage function returns the Go function's
  result (success, or its error string) together with the list of
  external commands it actually ran (argument vectors, in order).

* `internal/iso/iso.go` — `addMBRBootCode`, the hybrid-boot-structure
  writer, embedded as a pure function on the byte contents of the target
  ISO file (bytes as `Nat`s; `WriteAt` modelled with zero-fill extension,
  matching POSIX `pwrite` past EOF).
-/

namespace PGSDBuild

/-- An external command: the program name followed by its arguments,
exactly the argument vector built by `exec.Command` in the Go source. -/
abbrev Argv := List String

/-- Environment a single installer run interacts with: the filesystem,
the tool search path, the effective uid, and the behaviour of every
external process the installer may spawn.  All fields are static maps —
the installer never re-queries a path or re-runs a command, so one
lookup per key is faithful. -/
structure Env where
  /-- `os.Stat` succeeds on this path (the Go code only distinguishes
  success from `IsNotExist`; the model's filesystem is a set of paths). -/
  pathExists : String → Bool
  /-- Size in bytes of the file at a path (never read by `install.go`;
  carried so that claims about file emptiness can be stated). -/
  fileSize : String → Nat
  /-- `exec.LookPath` succeeds for this tool name. -/
  toolAvailable : String → Bool
  /-- `os.Geteuid()`. -/
  euid : Nat
  /-- The process run with this argument vector exits with status 0. -/
  cmdOk : Argv → Bool
  /-- Error text of the `error` returned by `Run`/`Wait` for this
  command when it fails (e.g. "exit status 1"). -/
  cmdErrMsg : Argv → String
  /-- Combined stdout+stderr captured by `CombinedOutput`. -/
  cmdOutput : Argv → String
  /-- `cmd.Start()` succeeds for this command. -/
  startOk : Argv → Bool
  /-- Error text when `cmd.Start()` fails. -/
  startErrMsg : Argv → String
  /-- `xzcat.StdoutPipe()` succeeds. -/
  pipeOk : Bool
  /-- Error text when `StdoutPipe` fails. -/
  pipeErrMsg : String
  /-- The stderr pipe handle of a spawned command, carrying the text the
  process wrote to stderr (`none` models a nil pipe: `StderrPipe` errors
  are discarded by the Go code). -/
  stderrPipe : Argv → Option String

/-- `install.Config` (the `LogFunc` progress callback is pure I/O and
never affects any result, so it is not part of the model). -/
structure Config where
  imagePath : String
  targetDisk : String
  zpoolName : String

/-- `filepath.Join` on the two-segment paths the installer builds. -/
def joinPath (dir file : String) : String := dir ++ "/" ++ file

/-- The three artifacts `validateConfig` requires inside the image
directory (`requiredFiles` in the Go source). -/
def requiredFiles : List String := ["root.zfs.xz", "efi.img", "manifest.toml"]

/-- Rendering of the Go `requiredFiles` slice by `%v`, part of the
missing-file error text. -/
def requiredFilesRendered : String := "[root.zfs.xz efi.img manifest.toml]"

/-- First required file whose path fails `os.Stat`, scanning in
declaration order — the file the Go loop reports. -/
def firstMissingFile (env : Env) (imagePath : String) : List String → Option String
  | [] => none
  | f :: rest =>
    if env.pathExists (joinPath imagePath f) then firstMissingFile env imagePath rest
    else some f

/-- `strings.ContainsAny(name, " /\\")`. -/
def poolNameHasBadChar (name : String) : Bool :=
  name.toList.any (fun c => c == ' ' || c == '/' || c == '\\')

/-- `validateConfig` from `install.go`: field presence, image-directory
and artifact existence, and pool-name constraints, checked in source
order; returns the Go error text on rejection. -/
def validateConfig (env : Env) (cfg : Config) : Except String Unit :=
  if cfg.imagePath = "" then .error "image path is required"
  else if cfg.targetDisk = "" then .error "target disk is required"
  else if cfg.zpoolName = "" then .error "zpool name is required"
  else if !env.pathExists cfg.imagePath then
    .error ("image directory not found: " ++ cfg.imagePath)
  else
    match firstMissingFile env cfg.imagePath requiredFiles with
    | some f =>
      .error ("required file missing: " ++ f ++
        "\nThe image directory must contain: " ++ requiredFilesRendered)
    | none =>
      if cfg.zpoolName.length > 63 then
        .error ("zpool name too long (max 63 characters): " ++ cfg.zpoolName)
      else if poolNameHasBadChar cfg.zpoolName then
        .error ("zpool name contains invalid characters (no spaces or slashes): " ++
          cfg.zpoolName)
      else .ok ()

/-- The `required` tool list of `checkRequirements`. -/
def requiredTools : List String := ["gpart", "newfs_msdos", "zpool", "zfs", "xzcat", "dd"]

/-- The tools `exec.LookPath` fails on, in `required` order — the Go
loop appends exactly these to `missing`. -/
def missingTools (env : Env) : List String :=
  requiredTools.filter (fun t => !env.toolAvailable t)

/-- Error text for a non-empty `missing` list (`%v` renders a slice as
bracketed space-separated entries). -/
def missingToolsMsg (missing : List String) : String :=
  "required commands not found: [" ++ String.intercalate " " missing ++
    "]\nPlease ensure these tools are installed and in PATH"

/-- Error text of the non-root rejection. -/
def rootErrMsg : String := "installation must be run as root\nTry: sudo pgsd-inst"

/-- `checkRequirements` from `install.go`.  The second component records
whether `os.Geteuid()` was reached: the Go code returns the missing-tool
error before ever querying the effective uid. -/
def checkRequirements (env : Env) : Except String Unit × Bool :=
  if missingTools env ≠ [] then
    (.error (missingToolsMsg (missingTools env)), false)
  else if env.euid ≠ 0 then (.error rootErrMsg, true)
  else (.ok (), true)

/-! ## The seven pipeline stages -/

/-- `gpart destroy -F disk`. -/
def gpartDestroyCmd (disk : String) : Argv := ["gpart", "destroy", "-F", disk]

/-- `gpart create -s gpt disk`. -/
def gpartCreateCmd (disk : String) : Argv := ["gpart", "create", "-s", "gpt", disk]

/-- `gpart add -t efi -s 200M -l efiboot0 disk`. -/
def gpartAddEfiCmd (disk : String) : Argv :=
  ["gpart", "add", "-t", "efi", "-s", "200M", "-l", "efiboot0", disk]

/-- `gpart add -t freebsd-zfs -l zfsroot0 disk`. -/
def gpartAddZfsCmd (disk : String) : Argv :=
  ["gpart", "add", "-t", "freebsd-zfs", "-l", "zfsroot0", disk]

/-- The `commands` slice of `partitionDisk`, in execution order. -/
def partitionCommands (disk : String) : List Argv :=
  [gpartDestroyCmd disk, gpartCreateCmd disk, gpartAddEfiCmd disk, gpartAddZfsCmd disk]

/-- `fmt.Errorf("command %v failed: %w\nOutput: %s", strings.Join(args, " "), err, output)`. -/
def cmdFailMsg (env : Env) (args : Argv) : String :=
  "command " ++ String.intercalate " " args ++ " failed: " ++ env.cmdErrMsg args ++
    "\nOutput: " ++ env.cmdOutput args

/-- `args[1]`, the gpart verb of one of the four fixed partitioning
commands (each has at least two elements, so the Go index never
panics). -/
def secondArg : Argv → String
  | _ :: s :: _ => s
  | _ => ""

/-- The loop body of `partitionDisk`: run each command in turn; a failure
is fatal — and stops the loop — unless `args[1] == "destroy"`, in which
case it is swallowed and the loop continues.  Also returns the commands
actually executed, in order. -/
def runGpartSeq (env : Env) : List Argv → Except String Unit × List Argv
  | [] => (.ok (), [])
  | args :: rest =>
    if env.cmdOk args then
      let r := runGpartSeq env rest
      (r.1, args :: r.2)
    else if secondArg args = "destroy" then
      let r := runGpartSeq env rest
      (r.1, args :: r.2)
    else (.error (cmdFailMsg env args), [args])

/-- `partitionDisk` from `install.go`. -/
def partitionDisk (env : Env) (disk : String) : Except String Unit × List Argv :=
  runGpartSeq env (partitionCommands disk)

/-- `newfs_msdos -F 32 -c 1 efiPart`. -/
def newfsCmd (efiPart : String) : Argv := ["newfs_msdos", "-F", "32", "-c", "1", efiPart]

/-- `createEFIFilesystem` from `install.go`. -/
def createEFIFilesystem (env : Env) (efiPart : String) : Except String Unit × List Argv :=
  if env.cmdOk (newfsCmd efiPart) then (.ok (), [newfsCmd efiPart])
  else
    (.error ("newfs_msdos failed: " ++ env.cmdErrMsg (newfsCmd efiPart) ++
      "\nOutput: " ++ env.cmdOutput (newfsCmd efiPart)), [newfsCmd efiPart])

/-- `zpool create -f -o altroot=/mnt -O compression=lz4 -O atime=off poolName zfsPart`. -/
def zpoolCreateCmd (poolName zfsPart : String) : Argv :=
  ["zpool", "create", "-f", "-o", "altroot=/mnt", "-O", "compression=lz4",
   "-O", "atime=off", poolName, zfsPart]

/-- `createZFSPool` from `install.go`. -/
def createZFSPool (env : Env) (poolName zfsPart : String) : Except String Unit × List Argv :=
  if env.cmdOk (zpoolCreateCmd poolName zfsPart) then
    (.ok (), [zpoolCreateCmd poolName zfsPart])
  else
    (.error ("zpool create failed: " ++ env.cmdErrMsg (zpoolCreateCmd poolName zfsPart) ++
      "\nOutput: " ++ env.cmdOutput (zpoolCreateCmd poolName zfsPart)),
     [zpoolCreateCmd poolName zfsPart])

/-- `xzcat rootZFS`. -/
def xzcatCmd (rootZFS : String) : Argv := ["xzcat", rootZFS]

/-- `zfs receive -F poolName/ROOT/default`. -/
def zfsRecvCmd (poolName : String) : Argv :=
  ["zfs", "receive", "-F", poolName ++ "/ROOT/default"]

/-- `readPipe` from `install.go`.  The Go body returns `""` on a nil pipe
and — per its own inline comment, "a simplified version; in production
we'd use io.ReadAll" — also returns `""` on a live pipe, discarding
whatever the process wrote to stderr. -/
def readPipe (pipe : Option String) : String :=
  match pipe with
  | none => ""
  | some _ => ""

/-- `extractZFSStream` from `install.go`: stat the stream file, build the
`xzcat | zfs receive` pipeline, start the receiver then the
decompressor, wait on the decompressor first, then on the receiver.
The trace lists the processes successfully started, in start order. -/
def extractZFSStream (env : Env) (rootZFS poolName : String) :
    Except String Unit × List Argv :=
  if !env.pathExists rootZFS then
    (.error ("ZFS stream file not found: " ++ rootZFS), [])
  else if !env.pipeOk then
    (.error ("failed to create pipe between xzcat and zfs receive: " ++ env.pipeErrMsg), [])
  else if !env.startOk (zfsRecvCmd poolName) then
    (.error ("failed to start zfs receive command: " ++
      env.startErrMsg (zfsRecvCmd poolName)), [])
  else if !env.startOk (xzcatCmd rootZFS) then
    (.error ("failed to start xzcat command: " ++ env.startErrMsg (xzcatCmd rootZFS)),
     [zfsRecvCmd poolName])
  else if !env.cmdOk (xzcatCmd rootZFS) then
    (.error ("xzcat decompression failed: " ++ env.cmdErrMsg (xzcatCmd rootZFS) ++
      "\nDetails: " ++ readPipe (env.stderrPipe (xzcatCmd rootZFS))),
     [zfsRecvCmd poolName, xzcatCmd rootZFS])
  else if !env.cmdOk (zfsRecvCmd poolName) then
    (.error ("zfs receive failed: " ++ env.cmdErrMsg (zfsRecvCmd poolName) ++
      "\nDetails: " ++ readPipe (env.stderrPipe (zfsRecvCmd poolName))),
     [zfsRecvCmd poolName, xzcatCmd rootZFS])
  else (.ok (), [zfsRecvCmd poolName, xzcatCmd rootZFS])

/-- `dd if=efiImg of=efiPart bs=1M`. -/
def ddCmd (efiImg efiPart : String) : Argv :=
  ["dd", "if=" ++ efiImg, "of=" ++ efiPart, "bs=1M"]

/-- `copyEFIPartition` from `install.go`. -/
def copyEFIPartition (env : Env) (efiImg efiPart : String) :
    Except String Unit × List Argv :=
  if !env.pathExists efiImg then
    (.error ("EFI image file not found: " ++ efiImg), [])
  else if env.cmdOk (ddCmd efiImg efiPart) then (.ok (), [ddCmd efiImg efiPart])
  else
    (.error ("failed to copy EFI partition: " ++ env.cmdErrMsg (ddCmd efiImg efiPart) ++
      "\nOutput: " ++ env.cmdOutput (ddCmd efiImg efiPart)), [ddCmd efiImg efiPart])

/-- `gpart bootcode -p /boot/boot1.efifat -i 1 disk`. -/
def bootcodeCmd (disk : String) : Argv :=
  ["gpart", "bootcode", "-p", "/boot/boot1.efifat", "-i", "1", disk]

/-- `installBootloader` from `install.go`. -/
def installBootloader (env : Env) (disk : String) : Except String Unit × List Argv :=
  if env.cmdOk (bootcodeCmd disk) then (.ok (), [bootcodeCmd disk])
  else
    (.error ("gpart bootcode failed: " ++ env.cmdErrMsg (bootcodeCmd disk) ++
      "\nOutput: " ++ env.cmdOutput (bootcodeCmd disk)), [bootcodeCmd disk])

/-- `zpool set bootfs=poolName/ROOT/default poolName`. -/
def zpoolSetCmd (poolName : String) : Argv :=
  ["zpool", "set", "bootfs=" ++ poolName ++ "/ROOT/default", poolName]

/-- `zpool export poolName`. -/
def zpoolExportCmd (poolName : String) : Argv := ["zpool", "export", poolName]

/-- `finalizeInstallation` from `install.go`. -/
def finalizeInstallation (env : Env) (poolName : String) :
    Except String Unit × List Argv :=
  if env.cmdOk (zpoolSetCmd poolName) then
    if env.cmdOk (zpoolExportCmd poolName) then
      (.ok (), [zpoolSetCmd poolName, zpoolExportCmd poolName])
    else
      (.error ("zpool export failed: " ++ env.cmdErrMsg (zpoolExportCmd poolName) ++
        "\nOutput: " ++ env.cmdOutput (zpoolExportCmd poolName)),
       [zpoolSetCmd poolName, zpoolExportCmd poolName])
  else
    (.error ("zpool set bootfs failed: " ++ env.cmdErrMsg (zpoolSetCmd poolName) ++
      "\nOutput: " ++ env.cmdOutput (zpoolSetCmd poolName)), [zpoolSetCmd poolName])

/-! ## The `Install` orchestrator -/

/-- Hint the orchestrator appends to a partitioning failure. -/
def hintPartition : String :=
  "\nHint: Ensure the disk is not in use and you have root privileges"

/-- Hint appended to an EFI-filesystem failure. -/
def hintEFIFS : String := "\nHint: The partition may not be properly created"

/-- Hint appended to a pool-creation failure. -/
def hintPool : String := "\nHint: Ensure ZFS kernel module is loaded (kldload zfs)"

/-- Hint appended to a stream-extraction failure. -/
def hintStream : String := "\nHint: Ensure the ZFS stream file is not corrupted"

/-- Hint appended to a bootloader failure. -/
def hintBootloader : String := "\nHint: Ensure /boot/boot1.efifat exists on the system"

/-- Steps 1–7 of `Install`, after validation and the requirements check
have passed: each stage runs only if every earlier stage succeeded, a
failing stage's error is wrapped with the stage's message (and hint),
and the trace accumulates every command run so far. -/
def installStages (env : Env) (cfg : Config) : Except String Unit × List Argv :=
  match partitionDisk env cfg.targetDisk with
  | (.error e, t) => (.error ("disk partitioning failed: " ++ e ++ hintPartition), t)
  | (.ok _, t1) =>
    match createEFIFilesystem env (cfg.targetDisk ++ "p1") with
    | (.error e, t) =>
      (.error ("EFI filesystem creation failed: " ++ e ++ hintEFIFS), t1 ++ t)
    | (.ok _, t2) =>
      match createZFSPool env cfg.zpoolName (cfg.targetDisk ++ "p2") with
      | (.error e, t) =>
        (.error ("ZFS pool creation failed: " ++ e ++ hintPool), t1 ++ t2 ++ t)
      | (.ok _, t3) =>
        match extractZFSStream env (joinPath cfg.imagePath "root.zfs.xz") cfg.zpoolName with
        | (.error e, t) =>
          (.error ("root filesystem extraction failed: " ++ e ++ hintStream),
           t1 ++ t2 ++ t3 ++ t)
        | (.ok _, t4) =>
          match copyEFIPartition env (joinPath cfg.imagePath "efi.img")
              (cfg.targetDisk ++ "p1") with
          | (.error e, t) =>
            (.error ("EFI partition installation failed: " ++ e), t1 ++ t2 ++ t3 ++ t4 ++ t)
          | (.ok _, t5) =>
            match installBootloader env cfg.targetDisk with
            | (.error e, t) =>
              (.error ("bootloader installation failed: " ++ e ++ hintBootloader),
               t1 ++ t2 ++ t3 ++ t4 ++ t5 ++ t)
            | (.ok _, t6) =>
              match finalizeInstallation env cfg.zpoolName with
              | (.error e, t) =>
                (.error ("installation finalization failed: " ++ e),
                 t1 ++ t2 ++ t3 ++ t4 ++ t5 ++ t6 ++ t)
              | (.ok _, t7) => (.ok (), t1 ++ t2 ++ t3 ++ t4 ++ t5 ++ t6 ++ t7)

/-- `Install` from `install.go`: validate the configuration, check the
system requirements, then run the seven stages.  Returns the Go result
and the full list of external commands invoked, in order (validation and
the requirements check invoke none). -/
def Install (env : Env) (cfg : Config) : Except String Unit × List Argv :=
  match validateConfig env cfg with
  | .error e => (.error ("invalid installation configuration: " ++ e), [])
  | .ok _ =>
    match (checkRequirements env).1 with
    | .error e => (.error ("system requirements not met: " ++ e), [])
    | .ok _ => installStages env cfg

/-! ## The hybrid-ISO MBR writer (`addMBRBootCode`, `internal/iso/iso.go`)

The file is modelled as its byte contents, a `List Nat` of values < 256.
`os.File.WriteAt` is modelled by `writeAt`: overwrite in place, extending
the file (zero-filling any gap past the old EOF, as POSIX `pwrite` does)
when the write reaches past the end. -/

/-- Overwrite the front of `file` with `data`, keeping the tail of
`file` and extending when `data` is longer. -/
def overwrite : List Nat → List Nat → List Nat
  | file, [] => file
  | [], d :: data => d :: overwrite [] data
  | _ :: file, d :: data => d :: overwrite file data

/-- `WriteAt(data, off)`: overwrite `data.length` bytes starting at
byte offset `off`, zero-filling between the old EOF and `off` if the
file was shorter. -/
def writeAt : List Nat → Nat → List Nat → List Nat
  | file, 0, data => overwrite file data
  | [], off + 1, data => 0 :: writeAt [] off data
  | b :: file, off + 1, data => b :: writeAt file off data

/-- Int64 two's-complement wrap-around, the semantics of Go `int64`
addition when the mathematical sum leaves `[-2^63, 2^63)`. -/
def int64wrap (n : Int) : Int := (n + 2 ^ 63) % 2 ^ 64 - 2 ^ 63

/-- The Go local `isoSectors := (isoSize + 511) / 512`, with `int64`
semantics: the addition wraps on overflow and `/` truncates toward
zero. -/
def isoSectors64 (isoSize : Nat) : Int :=
  (int64wrap ((isoSize : Int) + 511)).tdiv 512

/-- The sector count `addMBRBootCode` stores for a file of `isoSize`
bytes: `sectors := uint32(isoSectors)` (the low 32 bits), overridden by
`0xFFFFFFFF` when `isoSectors > 0xFFFFFFFF`. -/
def sectorsStored (isoSize : Nat) : Nat :=
  (if isoSectors64 isoSize > 0xFFFFFFFF then (0xFFFFFFFF : Int)
   else isoSectors64 isoSize % 2 ^ 32).toNat

/-- The 64-byte `partitionTable` buffer built by `addMBRBootCode`:
one populated entry — bootable flag `0x80`, CHS start placeholder
`(0, 1, 0)`, partition type `0xcd` (ISO 9660), CHS end `(0xFE, 0xFF,
0xFF)`, starting LBA 0, then the sector count little-endian — followed
by 48 zero bytes (`make([]byte, 64)` zero-initialises). -/
def mbrPartitionTable (sectors : Nat) : List Nat :=
  [0x80, 0x00, 0x01, 0x00, 0xcd, 0xFE, 0xFF, 0xFF,
   0x00, 0x00, 0x00, 0x00,
   sectors &&& 0xFF, (sectors >>> 8) &&& 0xFF,
   (sectors >>> 16) &&& 0xFF, (sectors >>> 24) &&& 0xFF] ++
  List.replicate 48 0

/-- `addMBRBootCode` from `internal/iso/iso.go`, the write path after the
boot blob has been located and read (the candidate-path search and the
I/O error returns carry no byte-level content and are elided): write the
first `min(len(isoboot), 432)` boot-code bytes at offset 0, stat the
file, write the 64-byte partition table at offset 446, and the
`0x55 0xAA` signature at offset 510.  The file is opened `O_RDWR`
without truncation, so the result is a pure transformation of the
existing contents. -/
def addMBRBootCode (isoboot file : List Nat) : List Nat :=
  let bootCode := isoboot.take 432
  let f1 := writeAt file 0 bootCode
  let isoSize := f1.length
  let table := mbrPartitionTable (sectorsStored isoSize)
  let f2 := writeAt f1 446 table
  writeAt f2 510 [0x55, 0xAA]

/-- Little-endian decoding of the four bytes at offset `off`. -/
def decode4LE (l : List Nat) (off : Nat) : Nat :=
  l.getD off 0 + 256 * l.getD (off + 1) 0 + 65536 * l.getD (off + 2) 0 +
    16777216 * l.getD (off + 3) 0

/-! ### Byte-level laws of `writeAt` -/

theorem overwrite_getD (data : List Nat) :
    ∀ (file : List Nat) (i : Nat),
      (overwrite file data).getD i 0 =
        if i < data.length then data.getD i 0 else file.getD i 0 := by
  induction data with
  | nil => intro file i; simp [overwrite]
  | cons d data ih =>
    intro file i
    cases file with
    | nil =>
      cases i with
      | zero => simp [overwrite]
      | succ j => simpa [overwrite, Nat.succ_lt_succ_iff] using ih [] j
    | cons b file =>
      cases i with
      | zero => simp [overwrite]
      | succ j => simpa [overwrite, Nat.succ_lt_succ_iff] using ih file j

theorem overwrite_length (data : List Nat) :
    ∀ file : List Nat, (overwrite file data).length = max file.length data.length := by
  induction data with
  | nil => intro file; simp [overwrite]
  | cons d data ih =>
    intro file
    cases file with
    | nil => simp [overwrite, ih]
    | cons b file =>
      simp [overwrite, ih file, Nat.succ_max_succ]

theorem writeAt_getD (off : Nat) :
    ∀ (file data : List Nat) (i : Nat),
      (writeAt file off data).getD i 0 =
        if off ≤ i ∧ i < off + data.length then data.getD (i - off) 0
        else file.getD i 0 := by
  induction off with
  | zero =>
    intro file data i
    simpa [writeAt] using overwrite_getD data file i
  | succ k ih =>
    intro file data i
    cases file with
    | nil =>
      cases i with
      | zero => simp [writeAt]
      | succ j =>
        have := ih [] data j
        simp only [writeAt, List.getD_cons_succ, this]
        have h₁ : k + 1 ≤ j + 1 ↔ k ≤ j := Nat.succ_le_succ_iff
        have h₂ : j + 1 < k + 1 + data.length ↔ j < k + data.length := by omega
        have h₃ : j + 1 - (k + 1) = j - k := by omega
        simp [h₁, h₂, h₃]
    | cons b file =>
      cases i with
      | zero => simp [writeAt]
      | succ j =>
        have := ih file data j
        simp only [writeAt, List.getD_cons_succ, this]
        have h₁ : k + 1 ≤ j + 1 ↔ k ≤ j := Nat.succ_le_succ_iff
        have h₂ : j + 1 < k + 1 + data.length ↔ j < k + data.length := by omega
        have h₃ : j + 1 - (k + 1) = j - k := by omega
        simp [h₁, h₂, h₃]

theorem writeAt_length (off : Nat) :
    ∀ file data : List Nat,
      (writeAt file off data).length = max file.length (off + data.length) := by
  induction off with
  | zero =>
    intro file data
    simpa [writeAt] using overwrite_length data file
  | succ k ih =>
    intro file data
    cases file with
    | nil => simp [writeAt, ih]; omega
    | cons b file => simp [writeAt, ih file data]; omega

/-! ## Concrete environments used by witnesses and counterexamples -/

/-- Environment of Scenario A: `/img/a` holds all three artifacts, every
tool resolves, the caller is root, and every external command succeeds. -/
def happyEnv : Env where
  pathExists := fun p =>
    ["/img/a", "/img/a/root.zfs.xz", "/img/a/efi.img", "/img/a/manifest.toml"].contains p
  fileSize := fun _ => 1024
  toolAvailable := fun _ => true
  euid := 0
  cmdOk := fun _ => true
  cmdErrMsg := fun _ => ""
  cmdOutput := fun _ => ""
  startOk := fun _ => true
  startErrMsg := fun _ => ""
  pipeOk := true
  pipeErrMsg := ""
  stderrPipe := fun _ => none

/-- The Scenario A configuration. -/
def cfgA : Config := { imagePath := "/img/a", targetDisk := "ada0", zpoolName := "pgsd" }

/-! ## C8 — the requirements check lists every missing tool -/

/-- C8: whenever at least one required external tool is absent, the
requirements check fails with the error built from the full list of
absent tools — which contains every absent required tool, not a proper
subset — and when all tools are present it fails whenever the effective
user is not root. -/
theorem checkRequirements_exhaustive (env : Env) :
    (missingTools env ≠ [] →
      (checkRequirements env).1 = .error (missingToolsMsg (missingTools env)) ∧
      ∀ t ∈ requiredTools, env.toolAvailable t = false → t ∈ missingTools env) ∧
    (missingTools env = [] → env.euid ≠ 0 →
      (checkRequirements env).1 = .error rootErrMsg) := by
  refine ⟨fun h => ⟨by simp [checkRequirements, h], fun t ht hav => ?_⟩,
    fun h h0 => by simp [checkRequirements, h, h0]⟩
  simp [missingTools, List.mem_filter, ht, hav]

/-- Witness for C8: with `gpart` and `dd` absent and a non-root caller,
the single reported error lists both missing tools. -/
theorem checkRequirements_exhaustive_witness :
    (checkRequirements
        { happyEnv with
          toolAvailable := fun t => !(t == "gpart" || t == "dd"), euid := 1000 }).1 =
      .error (missingToolsMsg
        (missingTools
          { happyEnv with
            toolAvailable := fun t => !(t == "gpart" || t == "dd"), euid := 1000 })) ∧
    "dd" ∈ missingTools
      { happyEnv with
        toolAvailable := fun t => !(t == "gpart" || t == "dd"), euid := 1000 } :=
  ⟨((checkRequirements_exhaustive _).1 (by decide)).1,
   ((checkRequirements_exhaustive _).1 (by decide)).2 "dd" (by decide) (by decide)⟩

/-! ## C10 — missing tools short-circuit the root check -/

/-- C10: when any required tool is missing, `checkRequirements` returns
the missing-tools error with the euid never queried (second component
`false`); the effective uid is consulted — and hence the
insufficient-privilege error is reportable — only when every required
tool is present. -/
theorem checkRequirements_skips_euid (env : Env) :
    (missingTools env ≠ [] →
      checkRequirements env = (.error (missingToolsMsg (missingTools env)), false)) ∧
    ((checkRequirements env).2 = true → missingTools env = []) ∧
    (missingTools env = [] → env.euid ≠ 0 →
      checkRequirements env = (.error rootErrMsg, true)) := by
  refine ⟨fun h => by simp [checkRequirements, h], fun h => ?_,
    fun h h0 => by simp [checkRequirements, h, h0]⟩
  by_cases hm : missingTools env = []
  · exact hm
  · simp [checkRequirements, hm] at h

/-- Witness for C10: a non-root caller with `zfs` missing receives the
missing-tools error and the euid check is skipped. -/
theorem checkRequirements_skips_euid_witness :
    checkRequirements
        { happyEnv with toolAvailable := fun t => !(t == "zfs"), euid := 1000 } =
      (.error (missingToolsMsg
        (missingTools
          { happyEnv with toolAvailable := fun t => !(t == "zfs"), euid := 1000 })),
       false) :=
  (checkRequirements_skips_euid _).1 (by decide)

/-! ## C9 — the destroy step is best-effort, later steps are fatal -/

/-- C9: `partitionDisk` behaves identically on two environments that
agree on every command except `gpart destroy` (so a pre-existing
partition table — destroy succeeding — changes nothing); it succeeds
running all four commands whenever create/add-EFI/add-ZFS succeed,
destroy's outcome notwithstanding; and a failure of any of the three
subsequent steps is fatal: the error is that command's failure text and
no further command (and no rollback command) runs after it. -/
theorem partitionDisk_destroy_swallowed (disk : String) :
    (∀ env env' : Env,
      (∀ a, a ≠ gpartDestroyCmd disk →
        env.cmdOk a = env'.cmdOk a ∧ env.cmdErrMsg a = env'.cmdErrMsg a ∧
          env.cmdOutput a = env'.cmdOutput a) →
      partitionDisk env disk = partitionDisk env' disk) ∧
    (∀ env : Env, env.cmdOk (gpartCreateCmd disk) = true →
      env.cmdOk (gpartAddEfiCmd disk) = true →
      env.cmdOk (gpartAddZfsCmd disk) = true →
      partitionDisk env disk = (.ok (), partitionCommands disk)) ∧
    (∀ env : Env, env.cmdOk (gpartCreateCmd disk) = false →
      partitionDisk env disk =
        (.error (cmdFailMsg env (gpartCreateCmd disk)),
         [gpartDestroyCmd disk, gpartCreateCmd disk])) ∧
    (∀ env : Env, env.cmdOk (gpartCreateCmd disk) = true →
      env.cmdOk (gpartAddEfiCmd disk) = false →
      partitionDisk env disk =
        (.error (cmdFailMsg env (gpartAddEfiCmd disk)),
         [gpartDestroyCmd disk, gpartCreateCmd disk, gpartAddEfiCmd disk])) ∧
    (∀ env : Env, env.cmdOk (gpartCreateCmd disk) = true →
      env.cmdOk (gpartAddEfiCmd disk) = true →
      env.cmdOk (gpartAddZfsCmd disk) = false →
      partitionDisk env disk =
        (.error (cmdFailMsg env (gpartAddZfsCmd disk)), partitionCommands disk)) := by
  have hne1 : gpartCreateCmd disk ≠ gpartDestroyCmd disk := by
    simp [gpartCreateCmd, gpartDestroyCmd]
  have hne2 : gpartAddEfiCmd disk ≠ gpartDestroyCmd disk := by
    simp [gpartAddEfiCmd, gpartDestroyCmd]
  have hne3 : gpartAddZfsCmd disk ≠ gpartDestroyCmd disk := by
    simp [gpartAddZfsCmd, gpartDestroyCmd]
  have s1 : secondArg (gpartDestroyCmd disk) = "destroy" := rfl
  have s2 : secondArg (gpartCreateCmd disk) = "create" := rfl
  have s3 : secondArg (gpartAddEfiCmd disk) = "add" := rfl
  have s4 : secondArg (gpartAddZfsCmd disk) = "add" := rfl
  have nd2 : ("create" : String) ≠ "destroy" := by decide
  have nd3 : ("add" : String) ≠ "destroy" := by decide
  refine ⟨fun env env' hagree => ?_, fun env hA hB hC => ?_, fun env hA => ?_,
    fun env hA hB => ?_, fun env hA hB hC => ?_⟩
  · obtain ⟨e1, m1, o1⟩ := hagree _ hne1
    obtain ⟨e2, m2, o2⟩ := hagree _ hne2
    obtain ⟨e3, m3, o3⟩ := hagree _ hne3
    cases hd : env.cmdOk (gpartDestroyCmd disk) <;>
      cases hd' : env'.cmdOk (gpartDestroyCmd disk) <;>
        simp [partitionDisk, partitionCommands, runGpartSeq, hd, hd', e1, e2, e3,
          cmdFailMsg, m1, m2, m3, o1, o2, o3, s1, s2, s3, s4, nd2, nd3]
  · cases hd : env.cmdOk (gpartDestroyCmd disk) <;>
      simp [partitionDisk, partitionCommands, runGpartSeq, hd, hA, hB, hC, s1]
  · cases hd : env.cmdOk (gpartDestroyCmd disk) <;>
      simp [partitionDisk, partitionCommands, runGpartSeq, hd, hA, s1, s2, nd2]
  · cases hd : env.cmdOk (gpartDestroyCmd disk) <;>
      simp [partitionDisk, partitionCommands, runGpartSeq, hd, hA, hB, s1, s3, nd3]
  · cases hd : env.cmdOk (gpartDestroyCmd disk) <;>
      simp [partitionDisk, partitionCommands, runGpartSeq, hd, hA, hB, hC, s1, s4, nd3]

/-- Witness for C9: on a disk with no partition table (destroy fails) but
all other commands succeeding, partitioning succeeds having run all four
commands. -/
theorem partitionDisk_destroy_swallowed_witness :
    partitionDisk
        { happyEnv with cmdOk := fun a => !(a == gpartDestroyCmd "ada0") } "ada0" =
      (.ok (), partitionCommands "ada0") :=
  (partitionDisk_destroy_swallowed "ada0").2.1 _ (by decide) (by decide) (by decide)

/-! ## C7 — the transfer pre-check tests existence only, not emptiness -/

/-- Counterexample for C7: an environment in which the stream file
exists with size zero.  The transfer step nonetheless succeeds and
starts both external processes, so the claim "if the file is missing or
has size zero, transfer fails immediately and no external process is
started" is false at this input. -/
theorem extract_empty_stream_counterexample :
    ¬ (({ happyEnv with fileSize := fun _ => 0 } : Env).fileSize
          (joinPath "/img/a" "root.zfs.xz") = 0 →
        (extractZFSStream { happyEnv with fileSize := fun _ => 0 }
            (joinPath "/img/a" "root.zfs.xz") "pgsd").1 ≠ .ok () ∧
        (extractZFSStream { happyEnv with fileSize := fun _ => 0 }
            (joinPath "/img/a" "root.zfs.xz") "pgsd").2 = []) := by
  intro h
  exact (h rfl).1 rfl

/-- C7 (amended): the transfer step checks only that the compressed
stream file exists before starting any process — if the stat fails the
step fails immediately with no external process started — and its
behaviour is entirely independent of the file's size, so an empty
stream file is not rejected. -/
theorem extract_checks_existence_only (env : Env) (rootZFS poolName : String) :
    (env.pathExists rootZFS = false →
      extractZFSStream env rootZFS poolName =
        (.error ("ZFS stream file not found: " ++ rootZFS), [])) ∧
    (∀ sz : String → Nat,
      extractZFSStream { env with fileSize := sz } rootZFS poolName =
        extractZFSStream env rootZFS poolName) := by
  refine ⟨fun h => by simp [extractZFSStream, h], fun sz => rfl⟩

/-- Witness for C7's amended claim: a missing stream file fails fast
with no process started. -/
theorem extract_checks_existence_only_witness :
    extractZFSStream { happyEnv with pathExists := fun _ => false }
        "/img/a/root.zfs.xz" "pgsd" =
      (.error ("ZFS stream file not found: " ++ "/img/a/root.zfs.xz"), []) :=
  (extract_checks_existence_only _ _ _).1 rfl

/-! ## C6 — pipe-failure attribution and the stderr capture stub -/

/-- C6: when the decompressor exits non-zero the error is attributed to
the decompression stage — whatever the receiver did — but the `Details`
section of the error is `readPipe` of the stderr pipe, and `readPipe`
returns the empty string on every input (its body discards the pipe),
so neither side's stderr text ever reaches the reported error. -/
theorem extract_xzcat_attribution_details_stubbed (env : Env) (rootZFS poolName : String)
    (hstat : env.pathExists rootZFS = true) (hpipe : env.pipeOk = true)
    (hs1 : env.startOk (zfsRecvCmd poolName) = true)
    (hs2 : env.startOk (xzcatCmd rootZFS) = true)
    (hxz : env.cmdOk (xzcatCmd rootZFS) = false) :
    (extractZFSStream env rootZFS poolName).1 =
      .error ("xzcat decompression failed: " ++ env.cmdErrMsg (xzcatCmd rootZFS) ++
        "\nDetails: " ++ readPipe (env.stderrPipe (xzcatCmd rootZFS))) ∧
    readPipe (env.stderrPipe (xzcatCmd rootZFS)) = "" ∧
    readPipe (env.stderrPipe (zfsRecvCmd poolName)) = "" := by
  refine ⟨by simp [extractZFSStream, hstat, hpipe, hs1, hs2, hxz], ?_, ?_⟩
  · cases env.stderrPipe (xzcatCmd rootZFS) <;> rfl
  · cases env.stderrPipe (zfsRecvCmd poolName) <;> rfl

/-- Environment whose decompressor and receiver both fail, the
decompressor having written "xz: data is corrupt" to stderr. -/
def stubPipeEnv : Env :=
  { happyEnv with
    cmdOk := fun a => !(secondArg a == "/img/a/root.zfs.xz" || a == zfsRecvCmd "pgsd"),
    stderrPipe := fun _ => some "xz: data is corrupt" }

/-- Witness for C6's theorem: a run whose decompressor fails, writing
"xz: data is corrupt" to stderr, while the receiver fails too; the
error names the decompression stage and its `Details` text is the empty
string, not the stderr content. -/
theorem extract_xzcat_attribution_witness :
    (extractZFSStream stubPipeEnv "/img/a/root.zfs.xz" "pgsd").1 =
      .error ("xzcat decompression failed: " ++ "" ++ "\nDetails: " ++
        readPipe (some "xz: data is corrupt")) ∧
    readPipe (some "xz: data is corrupt") = "" :=
  ⟨(extract_xzcat_attribution_details_stubbed stubPipeEnv "/img/a/root.zfs.xz" "pgsd"
      (by decide) rfl rfl rfl (by decide)).1,
   (extract_xzcat_attribution_details_stubbed stubPipeEnv "/img/a/root.zfs.xz" "pgsd"
      (by decide) rfl rfl rfl (by decide)).2.1⟩

/-! ## Helper lemmas for the MBR writer -/

theorem getD_take (n : Nat) :
    ∀ (l : List Nat) (i : Nat), i < n → (l.take n).getD i 0 = l.getD i 0 := by
  induction n with
  | zero => intro l i h; omega
  | succ m ih =>
    intro l i h
    cases l with
    | nil => simp
    | cons a l =>
      cases i with
      | zero => simp
      | succ j => simpa using ih l j (by omega)

theorem getD_replicate_zero : ∀ (n i : Nat), (List.replicate n (0 : Nat)).getD i 0 = 0 := by
  intro n
  induction n with
  | zero => intro i; simp
  | succ m ih =>
    intro i
    cases i with
    | zero => simp [List.replicate]
    | succ j => simp [List.replicate, ih j]

theorem mbrPartitionTable_length (s : Nat) : (mbrPartitionTable s).length = 64 := by
  simp [mbrPartitionTable]

/-- Entries 1–3 of the partition table (bytes 16–63 of the buffer) are
zero. -/
theorem mbrPartitionTable_getD_zero (s j : Nat) (h1 : 16 ≤ j) (h2 : j < 64) :
    (mbrPartitionTable s).getD j 0 = 0 := by
  unfold mbrPartitionTable
  rw [List.getD_append_right _ _ _ _ (by simp; omega)]
  exact getD_replicate_zero 48 _

/-- Reassembling a 32-bit value from its four little-endian bytes. -/
theorem byte_decomp (s : Nat) (h : s < 2 ^ 32) :
    (s &&& 0xFF) + 256 * ((s >>> 8) &&& 0xFF) + 65536 * ((s >>> 16) &&& 0xFF) +
      16777216 * ((s >>> 24) &&& 0xFF) = s := by
  have h255 : ∀ m : Nat, m &&& 0xFF = m % 256 := by
    intro m
    have := Nat.and_pow_two_sub_one_eq_mod m 8
    norm_num at this
    exact this
  rw [h255, h255, h255, h255, Nat.shiftRight_eq_div_pow, Nat.shiftRight_eq_div_pow,
    Nat.shiftRight_eq_div_pow]
  norm_num
  omega

/-- `sectorsStored` never wraps as a value: it is always below `2^32`. -/
theorem sectorsStored_lt (S : Nat) : sectorsStored S < 2 ^ 32 := by
  unfold sectorsStored
  split
  · omega
  · omega

/-- For sizes where the Go `int64` addition `isoSize + 511` does not
overflow, the stored sector count is exactly `ceil(S/512)` clamped to
`2^32 - 1`. -/
theorem isoSectors64_eq (S : Nat) (h : S + 511 < 2 ^ 63) :
    isoSectors64 S = (((S + 511) / 512 : Nat) : Int) := by
  unfold isoSectors64 int64wrap
  have hcast : (S : Int) + 511 = ((S + 511 : Nat) : Int) := by push_cast; ring
  rw [hcast]
  have h1 : (((S + 511 : Nat) : Int) + 2 ^ 63) % 2 ^ 64 = ((S + 511 : Nat) : Int) + 2 ^ 63 := by
    apply Int.emod_eq_of_lt
    · positivity
    · have : ((S + 511 : Nat) : Int) < 2 ^ 63 := by exact_mod_cast h
      omega
  rw [h1]
  have h2 : ((S + 511 : Nat) : Int) + 2 ^ 63 - 2 ^ 63 = ((S + 511 : Nat) : Int) := by ring
  rw [h2]
  rfl

theorem sectorsStored_eq (S : Nat) (h : S + 511 < 2 ^ 63) :
    sectorsStored S = min ((S + 511) / 512) (2 ^ 32 - 1) := by
  unfold sectorsStored
  rw [isoSectors64_eq S h]
  generalize (S + 511) / 512 = k
  split
  · omega
  · omega

/-- Index-by-index description of the bytes written by `addMBRBootCode`:
the boot-signature window, the partition-table window, the boot-code
window, and everything else untouched. -/
theorem addMBRBootCode_getD (isoboot file : List Nat) (i : Nat) :
    (addMBRBootCode isoboot file).getD i 0 =
      if 510 ≤ i ∧ i < 510 + 2 then [(0x55 : Nat), 0xAA].getD (i - 510) 0
      else if 446 ≤ i ∧ i < 446 + 64 then
        (mbrPartitionTable
          (sectorsStored (writeAt file 0 (isoboot.take 432)).length)).getD (i - 446) 0
      else if 0 ≤ i ∧ i < 0 + (isoboot.take 432).length then (isoboot.take 432).getD (i - 0) 0
      else file.getD i 0 := by
  have h2 : ([(0x55 : Nat), 0xAA]).length = 2 := rfl
  have h64 :
      (mbrPartitionTable
        (sectorsStored (writeAt file 0 (isoboot.take 432)).length)).length = 64 :=
    mbrPartitionTable_length _
  calc (addMBRBootCode isoboot file).getD i 0
      = (writeAt
          (writeAt (writeAt file 0 (isoboot.take 432)) 446
            (mbrPartitionTable (sectorsStored (writeAt file 0 (isoboot.take 432)).length)))
          510 [0x55, 0xAA]).getD i 0 := rfl
    _ = _ := by simp only [writeAt_getD, h2, h64]

/-! ## C4 — `addMBRBootCode` touches only the two documented windows -/

/-- C4: `addMBRBootCode` operates on the existing file contents in place
(the result is a pure transformation of them, never a truncation —
the length never shrinks) and every byte outside the two windows
`[0, min(L,432))` and `[446, 512)` is unchanged: the gap
`[min(L,432), 446)` left when the boot blob is short, and all ISO-9660
content from byte 512 on. -/
theorem addMBRBootCode_frame (isoboot file : List Nat) :
    (∀ i, min isoboot.length 432 ≤ i → i < 446 →
      (addMBRBootCode isoboot file).getD i 0 = file.getD i 0) ∧
    (∀ i, 512 ≤ i → (addMBRBootCode isoboot file).getD i 0 = file.getD i 0) ∧
    file.length ≤ (addMBRBootCode isoboot file).length := by
  have hbootlen : (isoboot.take 432).length = min isoboot.length 432 := by
    rw [List.length_take, Nat.min_comm]
  refine ⟨fun i h1 h2 => ?_, fun i h1 => ?_, ?_⟩
  · rw [addMBRBootCode_getD, if_neg (by omega), if_neg (by omega),
      if_neg (by rw [hbootlen]; omega)]
  · rw [addMBRBootCode_getD, if_neg (by omega), if_neg (by omega),
      if_neg (by rw [hbootlen]; omega)]
  · have hout : addMBRBootCode isoboot file =
        writeAt
          (writeAt (writeAt file 0 (isoboot.take 432)) 446
            (mbrPartitionTable (sectorsStored (writeAt file 0 (isoboot.take 432)).length)))
          510 [0x55, 0xAA] := rfl
    rw [hout, writeAt_length, writeAt_length, writeAt_length]
    omega

/-- Witness for C4: with a 10-byte boot blob and a 600-byte file, byte
100 (inside the untouched gap) and byte 520 (past the MBR) keep their
original values, and the file is not truncated. -/
theorem addMBRBootCode_frame_witness :
    (addMBRBootCode (List.replicate 10 7) (List.replicate 600 9)).getD 100 0 =
      (List.replicate 600 (9 : Nat)).getD 100 0 ∧
    (addMBRBootCode (List.replicate 10 7) (List.replicate 600 9)).getD 520 0 =
      (List.replicate 600 (9 : Nat)).getD 520 0 ∧
    (List.replicate 600 (9 : Nat)).length ≤
      (addMBRBootCode (List.replicate 10 7) (List.replicate 600 9)).length :=
  ⟨(addMBRBootCode_frame _ _).1 100 (by decide) (by decide),
   (addMBRBootCode_frame _ _).2.1 520 (by decide),
   (addMBRBootCode_frame _ _).2.2⟩

/-! ## C3 — the MBR bytes written, and the offsets the spec claims -/

/-- A 432-byte boot blob of `0x90` bytes. -/
def isobootSample : List Nat := List.replicate 432 0x90

/-- A 2048-byte target file of `0xAB` bytes (a four-sector ISO). -/
def isoFileSample : List Nat := List.replicate 2048 0xAB

/-- Counterexample for C3: at this concrete blob and file, the claimed
byte layout — type byte at 453, starting LBA at 458:462, sector count at
462:466, zeros at 466:510 — does not hold: the code writes the standard
MBR entry layout instead (type at 450, LBA at 454:458, count at
458:462), so byte 453 holds the CHS-end filler `0xFF`, not the ISO 9660
type byte `0xcd`. -/
theorem addMBRBootCode_spec_offsets_false :
    ¬ ((∀ i, i < min isobootSample.length 432 →
          (addMBRBootCode isobootSample isoFileSample).getD i 0 =
            isobootSample.getD i 0) ∧
       (addMBRBootCode isobootSample isoFileSample).getD 446 0 = 0x80 ∧
       (addMBRBootCode isobootSample isoFileSample).getD 453 0 = 0xcd ∧
       decode4LE (addMBRBootCode isobootSample isoFileSample) 458 = 0 ∧
       decode4LE (addMBRBootCode isobootSample isoFileSample) 462 =
         min ((isoFileSample.length + 511) / 512) (2 ^ 32 - 1) ∧
       (∀ i, 466 ≤ i → i < 510 →
          (addMBRBootCode isobootSample isoFileSample).getD i 0 = 0) ∧
       (addMBRBootCode isobootSample isoFileSample).getD 510 0 = 0x55 ∧
       (addMBRBootCode isobootSample isoFileSample).getD 511 0 = 0xAA) := by
  rintro ⟨-, -, h453, -⟩
  have hbyte : (addMBRBootCode isobootSample isoFileSample).getD 453 0 = 0xFF := by decide
  rw [hbyte] at h453
  exact absurd h453 (by decide)

/-- The sector-count field: entry bytes 12–15 of the table decode to the
little-endian reassembly of `sectors`. -/
theorem decode4LE_mbrPartitionTable (s : Nat) :
    decode4LE (mbrPartitionTable s) 12 =
      (s &&& 0xFF) + 256 * ((s >>> 8) &&& 0xFF) + 65536 * ((s >>> 16) &&& 0xFF) +
        16777216 * ((s >>> 24) &&& 0xFF) := rfl

/-- File bytes 458–461 of the written ISO are table bytes 12–15. -/
theorem addMBRBootCode_decode458 (isoboot file : List Nat) :
    decode4LE (addMBRBootCode isoboot file) 458 =
      decode4LE (mbrPartitionTable
        (sectorsStored (writeAt file 0 (isoboot.take 432)).length)) 12 := by
  unfold decode4LE
  rw [addMBRBootCode_getD, addMBRBootCode_getD, addMBRBootCode_getD, addMBRBootCode_getD]
  norm_num

/-- C3 (amended): for a target file of at least 432 bytes (so the size
statted after the boot-code write equals the original size `S`) with
`S + 511 < 2^63` (no int64 overflow), `addMBRBootCode` produces:
the blob's first `min(L, 432)` bytes at `[0, min(L,432))`; `0x80` at
446; the ISO 9660 type byte `0xcd` at 450 (the standard
entry-offset-4 position); starting LBA 0 in `[454, 458)`; the sector
count `ceil(S/512)` clamped to `2^32 - 1`, little-endian, in
`[458, 462)`; zeros in `[462, 510)`; and `0x55 0xAA` at `[510, 512)`. -/
theorem addMBRBootCode_bytes (isoboot file : List Nat)
    (h432 : 432 ≤ file.length) (hbound : file.length + 511 < 2 ^ 63) :
    (∀ i, i < min isoboot.length 432 →
      (addMBRBootCode isoboot file).getD i 0 = isoboot.getD i 0) ∧
    (addMBRBootCode isoboot file).getD 446 0 = 0x80 ∧
    (addMBRBootCode isoboot file).getD 450 0 = 0xcd ∧
    decode4LE (addMBRBootCode isoboot file) 454 = 0 ∧
    decode4LE (addMBRBootCode isoboot file) 458 =
      min ((file.length + 511) / 512) (2 ^ 32 - 1) ∧
    (∀ i, 462 ≤ i → i < 510 → (addMBRBootCode isoboot file).getD i 0 = 0) ∧
    (addMBRBootCode isoboot file).getD 510 0 = 0x55 ∧
    (addMBRBootCode isoboot file).getD 511 0 = 0xAA := by
  have hbootlen : (isoboot.take 432).length = min isoboot.length 432 := by
    rw [List.length_take, Nat.min_comm]
  have hf1len : (writeAt file 0 (isoboot.take 432)).length = file.length := by
    rw [writeAt_length, hbootlen]
    omega
  refine ⟨fun i hi => ?_, ?_, ?_, ?_, ?_, fun i h1 h2 => ?_, ?_, ?_⟩
  · rw [addMBRBootCode_getD, if_neg (by omega), if_neg (by omega),
      if_pos (by rw [hbootlen]; omega)]
    exact getD_take 432 isoboot i (by omega)
  · rw [addMBRBootCode_getD]
    rfl
  · rw [addMBRBootCode_getD]
    rfl
  · simp only [decode4LE, addMBRBootCode_getD]
    rfl
  · rw [addMBRBootCode_decode458, decode4LE_mbrPartitionTable,
      byte_decomp _ (sectorsStored_lt _), hf1len, sectorsStored_eq _ hbound]
  · rw [addMBRBootCode_getD, if_neg (by omega), if_pos (by omega)]
    exact mbrPartitionTable_getD_zero _ _ (by omega) (by omega)
  · rw [addMBRBootCode_getD]
    rfl
  · rw [addMBRBootCode_getD]
    rfl

/-- Witness for C3's amended claim at the sample blob and file: the type
byte is at 450 and the sector count 4 = ceil(2048/512) is decoded from
bytes 458:462. -/
theorem addMBRBootCode_bytes_witness :
    (addMBRBootCode isobootSample isoFileSample).getD 450 0 = 0xcd ∧
    decode4LE (addMBRBootCode isobootSample isoFileSample) 458 =
      min ((isoFileSample.length + 511) / 512) (2 ^ 32 - 1) :=
  ⟨(addMBRBootCode_bytes isobootSample isoFileSample (by norm_num [isoFileSample])
      (by norm_num [isoFileSample])).2.2.1,
   (addMBRBootCode_bytes isobootSample isoFileSample (by norm_num [isoFileSample])
      (by norm_num [isoFileSample])).2.2.2.2.1⟩

/-! ## C5 — the stored sector count: clamping and int64 overflow -/

/-- Counterexample for C5: at file size `S = 2^63 - 1` (the largest
`int64` file size) the Go addition `isoSize + 511` overflows, the
truncated division yields a negative `isoSectors`, the clamp does not
fire, and the `uint32` narrowing stores the wrapped value 1 — not
`ceil(S/512)` clamped to `2^32 - 1` as claimed for every size. -/
theorem sectorsStored_wraps_counterexample :
    ¬ (decode4LE (mbrPartitionTable (sectorsStored (2 ^ 63 - 1))) 12 =
        min ((2 ^ 63 - 1 + 511) / 512) (2 ^ 32 - 1)) := by
  intro h
  have h1 : decode4LE (mbrPartitionTable (sectorsStored (2 ^ 63 - 1))) 12 = 1 := by decide
  have h2 : min ((2 ^ 63 - 1 + 511) / 512) (2 ^ 32 - 1) = 2 ^ 32 - 1 := by decide
  rw [h1, h2] at h
  exact absurd h (by decide)

/-- C5 (amended): for every file size `S` with `S + 511 < 2^63` (no
int64 overflow — every size except the top 511 values of the `int64`
range), the four little-endian bytes at entry offset 12 of the partition
table decode to exactly `ceil(S/512)` clamped to `2^32 - 1`, and the
narrowing to 32 bits never stores a wrapped value:
`sectorsStored S < 2^32` always, and under the bound it equals the
clamped ceiling. -/
theorem sectorsStored_clamped (S : Nat) (h : S + 511 < 2 ^ 63) :
    decode4LE (mbrPartitionTable (sectorsStored S)) 12 =
      min ((S + 511) / 512) (2 ^ 32 - 1) ∧
    sectorsStored S < 2 ^ 32 ∧
    sectorsStored S = min ((S + 511) / 512) (2 ^ 32 - 1) := by
  refine ⟨?_, sectorsStored_lt S, sectorsStored_eq S h⟩
  rw [decode4LE_mbrPartitionTable, byte_decomp _ (sectorsStored_lt S), sectorsStored_eq S h]

/-- Witness for C5's amended claim: a 2048-byte file stores sector count
4. -/
theorem sectorsStored_clamped_witness :
    decode4LE (mbrPartitionTable (sectorsStored 2048)) 12 =
      min ((2048 + 511) / 512) (2 ^ 32 - 1) :=
  (sectorsStored_clamped 2048 (by decide)).1

/-! ## C2 — the validation contract -/

/-- The rejection conditions C2 claims `validateConfig` tests: an empty
field, a missing image directory, a missing required artifact, or an
over-long or ill-charactered pool name. -/
def badConfig (env : Env) (cfg : Config) : Prop :=
  cfg.imagePath = "" ∨ cfg.targetDisk = "" ∨ cfg.zpoolName = "" ∨
  env.pathExists cfg.imagePath = false ∨
  (∃ f ∈ requiredFiles, env.pathExists (joinPath cfg.imagePath f) = false) ∨
  63 < cfg.zpoolName.length ∨ poolNameHasBadChar cfg.zpoolName = true

theorem firstMissingFile_none (env : Env) (p : String) :
    ∀ fs : List String, firstMissingFile env p fs = none ↔
      ∀ f ∈ fs, env.pathExists (joinPath p f) = true := by
  intro fs
  induction fs with
  | nil => simp [firstMissingFile]
  | cons g rest ih =>
    by_cases hg : env.pathExists (joinPath p g)
    · simp [firstMissingFile, hg, ih]
    · simp only [firstMissingFile, if_neg hg]
      constructor
      · intro h; cases h
      · intro h
        exact absurd (h g (List.mem_cons_self g rest)) (by simpa using hg)

theorem firstMissingFile_some (env : Env) (p : String) :
    ∀ (fs : List String) (f : String), firstMissingFile env p fs = some f →
      f ∈ fs ∧ env.pathExists (joinPath p f) = false := by
  intro fs
  induction fs with
  | nil => intro f h; simp [firstMissingFile] at h
  | cons g rest ih =>
    intro f h
    by_cases hg : env.pathExists (joinPath p g)
    · rw [firstMissingFile, if_pos hg] at h
      obtain ⟨hmem, hfa⟩ := ih f h
      exact ⟨List.mem_cons_of_mem _ hmem, hfa⟩
    · rw [firstMissingFile, if_neg hg] at h
      cases h
      exact ⟨List.mem_cons_self _ _, by simpa using hg⟩

theorem validateConfig_ok_of (env : Env) (cfg : Config)
    (h1 : cfg.imagePath ≠ "") (h2 : cfg.targetDisk ≠ "") (h3 : cfg.zpoolName ≠ "")
    (h4 : env.pathExists cfg.imagePath = true)
    (h5 : ∀ f ∈ requiredFiles, env.pathExists (joinPath cfg.imagePath f) = true)
    (h6 : cfg.zpoolName.length ≤ 63)
    (h7 : poolNameHasBadChar cfg.zpoolName = false) :
    validateConfig env cfg = .ok () := by
  have hm : firstMissingFile env cfg.imagePath requiredFiles = none :=
    (firstMissingFile_none env cfg.imagePath requiredFiles).2 h5
  simp [validateConfig, h1, h2, h3, h4, hm, h7, Nat.not_lt.mpr h6]

theorem validateConfig_ok_iff (env : Env) (cfg : Config) :
    validateConfig env cfg = .ok () ↔ ¬ badConfig env cfg := by
  constructor
  · intro hv
    cases hm : firstMissingFile env cfg.imagePath requiredFiles with
    | some f =>
      simp only [validateConfig, hm] at hv
      split_ifs at hv
    | none =>
      have hall := (firstMissingFile_none env cfg.imagePath requiredFiles).1 hm
      simp only [validateConfig, hm] at hv
      split_ifs at hv with g1 g2 g3 g4 g6 g7
      intro hbad
      rcases hbad with h | h | h | h | ⟨f, hmem, hfa⟩ | h | h
      · exact g1 h
      · exact g2 h
      · exact g3 h
      · simp [h] at g4
      · rw [hall f hmem] at hfa
        cases hfa
      · exact g6 h
      · exact g7 h
  · intro hnb
    apply validateConfig_ok_of env cfg
    · intro h; exact hnb (Or.inl h)
    · intro h; exact hnb (Or.inr (Or.inl h))
    · intro h; exact hnb (Or.inr (Or.inr (Or.inl h)))
    · cases hx : env.pathExists cfg.imagePath
      · exact absurd (Or.inr (Or.inr (Or.inr (Or.inl hx)))) hnb
      · rfl
    · intro f hf
      cases hx : env.pathExists (joinPath cfg.imagePath f)
      · exact absurd (Or.inr (Or.inr (Or.inr (Or.inr (Or.inl ⟨f, hf, hx⟩))))) hnb
      · rfl
    · by_contra h
      exact hnb (Or.inr (Or.inr (Or.inr (Or.inr (Or.inr (Or.inl (by omega)))))))
    · cases hx : poolNameHasBadChar cfg.zpoolName
      · rfl
      · exact absurd (Or.inr (Or.inr (Or.inr (Or.inr (Or.inr (Or.inr hx)))))) hnb

/-- C2: `Install` fails during validation — returning the
validation-wrapped error with no external command invoked — exactly when
one of the claimed conditions holds; and when the three fields are
non-empty, the directory exists, and a required file is missing, the
error names the first missing file. -/
theorem validateConfig_rejects_iff (env : Env) (cfg : Config) :
    ((∃ e, validateConfig env cfg = .error e) ↔ badConfig env cfg) ∧
    (∀ e, validateConfig env cfg = .error e →
      Install env cfg = (.error ("invalid installation configuration: " ++ e), [])) ∧
    (∀ f, cfg.imagePath ≠ "" → cfg.targetDisk ≠ "" → cfg.zpoolName ≠ "" →
      env.pathExists cfg.imagePath = true →
      firstMissingFile env cfg.imagePath requiredFiles = some f →
      validateConfig env cfg =
        .error ("required file missing: " ++ f ++
          "\nThe image directory must contain: " ++ requiredFilesRendered)) := by
  refine ⟨⟨fun ⟨e, he⟩ => ?_, fun hbad => ?_⟩, fun e he => ?_, fun f n1 n2 n3 hp hm => ?_⟩
  · by_contra hbad
    rw [(validateConfig_ok_iff env cfg).2 hbad] at he
    cases he
  · cases hv : validateConfig env cfg with
    | error e => exact ⟨e, rfl⟩
    | ok u =>
      cases u
      exact absurd hbad ((validateConfig_ok_iff env cfg).1 hv)
  · simp [Install, he]
  · simp [validateConfig, n1, n2, n3, hp, hm]

/-- Witness for C2: an empty `imagePath` is rejected with no command
run, and a directory missing `efi.img` is rejected naming `efi.img`. -/
theorem validateConfig_rejects_iff_witness :
    Install happyEnv { imagePath := "", targetDisk := "ada0", zpoolName := "pgsd" } =
      (.error ("invalid installation configuration: " ++ "image path is required"), []) ∧
    validateConfig
        { happyEnv with
          pathExists := fun p => ["/img/a", "/img/a/root.zfs.xz", "/img/a/manifest.toml"].contains p }
        cfgA =
      .error ("required file missing: " ++ "efi.img" ++
        "\nThe image directory must contain: " ++ requiredFilesRendered) :=
  ⟨(validateConfig_rejects_iff happyEnv _).2.1 "image path is required" rfl,
   (validateConfig_rejects_iff _ cfgA).2.2 "efi.img" (by decide) (by decide) (by decide)
     (by decide) (by decide)⟩

/-! ## C1 — stage order and failure attribution of `Install` -/

theorem checkRequirements_ok_of (env : Env)
    (h8 : ∀ t ∈ requiredTools, env.toolAvailable t = true) (h9 : env.euid = 0) :
    (checkRequirements env).1 = .ok () := by
  have hm : missingTools env = [] := by
    rw [missingTools, List.filter_eq_nil_iff]
    intro t ht
    simp [h8 t ht]
  simp [checkRequirements, hm, h9]

theorem Install_eq_installStages (env : Env) (cfg : Config)
    (hv : validateConfig env cfg = .ok ()) (hr : (checkRequirements env).1 = .ok ()) :
    Install env cfg = installStages env cfg := by
  simp only [Install, hv, hr]

theorem partitionDisk_ok_eq (env : Env) (disk : String)
    (hA : env.cmdOk (gpartCreateCmd disk) = true)
    (hB : env.cmdOk (gpartAddEfiCmd disk) = true)
    (hC : env.cmdOk (gpartAddZfsCmd disk) = true) :
    partitionDisk env disk = (.ok (), partitionCommands disk) := by
  have s1 : secondArg (gpartDestroyCmd disk) = "destroy" := rfl
  cases hd : env.cmdOk (gpartDestroyCmd disk) <;>
    simp [partitionDisk, partitionCommands, runGpartSeq, hd, hA, hB, hC, s1]

theorem createEFIFilesystem_ok (env : Env) (efiPart : String)
    (h : env.cmdOk (newfsCmd efiPart) = true) :
    createEFIFilesystem env efiPart = (.ok (), [newfsCmd efiPart]) := by
  simp [createEFIFilesystem, h]

theorem createZFSPool_ok (env : Env) (poolName zfsPart : String)
    (h : env.cmdOk (zpoolCreateCmd poolName zfsPart) = true) :
    createZFSPool env poolName zfsPart = (.ok (), [zpoolCreateCmd poolName zfsPart]) := by
  simp [createZFSPool, h]

theorem extractZFSStream_ok (env : Env) (rootZFS poolName : String)
    (hstat : env.pathExists rootZFS = true) (hpipe : env.pipeOk = true)
    (hs1 : env.startOk (zfsRecvCmd poolName) = true)
    (hs2 : env.startOk (xzcatCmd rootZFS) = true)
    (hx : env.cmdOk (xzcatCmd rootZFS) = true)
    (hz : env.cmdOk (zfsRecvCmd poolName) = true) :
    extractZFSStream env rootZFS poolName =
      (.ok (), [zfsRecvCmd poolName, xzcatCmd rootZFS]) := by
  simp [extractZFSStream, hstat, hpipe, hs1, hs2, hx, hz]

theorem copyEFIPartition_ok (env : Env) (efiImg efiPart : String)
    (hstat : env.pathExists efiImg = true)
    (h : env.cmdOk (ddCmd efiImg efiPart) = true) :
    copyEFIPartition env efiImg efiPart = (.ok (), [ddCmd efiImg efiPart]) := by
  simp [copyEFIPartition, hstat, h]

theorem installBootloader_ok (env : Env) (disk : String)
    (h : env.cmdOk (bootcodeCmd disk) = true) :
    installBootloader env disk = (.ok (), [bootcodeCmd disk]) := by
  simp [installBootloader, h]

theorem finalizeInstallation_ok (env : Env) (poolName : String)
    (hs : env.cmdOk (zpoolSetCmd poolName) = true)
    (he : env.cmdOk (zpoolExportCmd poolName) = true) :
    finalizeInstallation env poolName =
      (.ok (), [zpoolSetCmd poolName, zpoolExportCmd poolName]) := by
  simp [finalizeInstallation, hs, he]

/-- The per-stage external commands Scenario A requires to succeed (the
initial `gpart destroy` may fail freely). -/
def successCmds (cfg : Config) : List Argv :=
  [gpartCreateCmd cfg.targetDisk, gpartAddEfiCmd cfg.targetDisk,
   gpartAddZfsCmd cfg.targetDisk,
   newfsCmd (cfg.targetDisk ++ "p1"),
   zpoolCreateCmd cfg.zpoolName (cfg.targetDisk ++ "p2"),
   xzcatCmd (joinPath cfg.imagePath "root.zfs.xz"), zfsRecvCmd cfg.zpoolName,
   ddCmd (joinPath cfg.imagePath "efi.img") (cfg.targetDisk ++ "p1"),
   bootcodeCmd cfg.targetDisk,
   zpoolSetCmd cfg.zpoolName, zpoolExportCmd cfg.zpoolName]

/-- The full command trace of a successful installation:
partition → EFI-format → pool-create → stream-transfer → EFI-image-copy
→ bootloader-install → finalize, in that exact order. -/
def fullSuccessTrace (cfg : Config) : List Argv :=
  partitionCommands cfg.targetDisk ++
  [newfsCmd (cfg.targetDisk ++ "p1")] ++
  [zpoolCreateCmd cfg.zpoolName (cfg.targetDisk ++ "p2")] ++
  [zfsRecvCmd cfg.zpoolName, xzcatCmd (joinPath cfg.imagePath "root.zfs.xz")] ++
  [ddCmd (joinPath cfg.imagePath "efi.img") (cfg.targetDisk ++ "p1")] ++
  [bootcodeCmd cfg.targetDisk] ++
  [zpoolSetCmd cfg.zpoolName, zpoolExportCmd cfg.zpoolName]

/-- C1: under a valid configuration (image directory holding all three
artifacts, every tool present, caller root): if every stage's external
command succeeds, `Install` returns success having invoked the stages'
commands in the exact order partition → EFI-format → pool-create →
stream-transfer → EFI-image-copy → bootloader-install → finalize; and
whenever a stage fails after all earlier stages succeeded, `Install`
returns the error wrapped with that stage's name and its trace stops at
that stage — no later stage's command is ever invoked. -/
theorem Install_stage_order (env : Env) (cfg : Config)
    (h1 : cfg.imagePath ≠ "") (h2 : cfg.targetDisk ≠ "") (h3 : cfg.zpoolName ≠ "")
    (h4 : env.pathExists cfg.imagePath = true)
    (h5 : ∀ f ∈ requiredFiles, env.pathExists (joinPath cfg.imagePath f) = true)
    (h6 : cfg.zpoolName.length ≤ 63)
    (h7 : poolNameHasBadChar cfg.zpoolName = false)
    (h8 : ∀ t ∈ requiredTools, env.toolAvailable t = true)
    (h9 : env.euid = 0) :
    ((∀ c ∈ successCmds cfg, env.cmdOk c = true) → env.pipeOk = true →
      env.startOk (zfsRecvCmd cfg.zpoolName) = true →
      env.startOk (xzcatCmd (joinPath cfg.imagePath "root.zfs.xz")) = true →
      Install env cfg = (.ok (), fullSuccessTrace cfg)) ∧
    (∀ e t, partitionDisk env cfg.targetDisk = (.error e, t) →
      Install env cfg =
        (.error ("disk partitioning failed: " ++ e ++ hintPartition), t)) ∧
    (∀ t1 e t, partitionDisk env cfg.targetDisk = (.ok (), t1) →
      createEFIFilesystem env (cfg.targetDisk ++ "p1") = (.error e, t) →
      Install env cfg =
        (.error ("EFI filesystem creation failed: " ++ e ++ hintEFIFS), t1 ++ t)) ∧
    (∀ t1 t2 e t, partitionDisk env cfg.targetDisk = (.ok (), t1) →
      createEFIFilesystem env (cfg.targetDisk ++ "p1") = (.ok (), t2) →
      createZFSPool env cfg.zpoolName (cfg.targetDisk ++ "p2") = (.error e, t) →
      Install env cfg =
        (.error ("ZFS pool creation failed: " ++ e ++ hintPool), t1 ++ t2 ++ t)) ∧
    (∀ t1 t2 t3 e t, partitionDisk env cfg.targetDisk = (.ok (), t1) →
      createEFIFilesystem env (cfg.targetDisk ++ "p1") = (.ok (), t2) →
      createZFSPool env cfg.zpoolName (cfg.targetDisk ++ "p2") = (.ok (), t3) →
      extractZFSStream env (joinPath cfg.imagePath "root.zfs.xz") cfg.zpoolName =
        (.error e, t) →
      Install env cfg =
        (.error ("root filesystem extraction failed: " ++ e ++ hintStream),
         t1 ++ t2 ++ t3 ++ t)) ∧
    (∀ t1 t2 t3 t4 e t, partitionDisk env cfg.targetDisk = (.ok (), t1) →
      createEFIFilesystem env (cfg.targetDisk ++ "p1") = (.ok (), t2) →
      createZFSPool env cfg.zpoolName (cfg.targetDisk ++ "p2") = (.ok (), t3) →
      extractZFSStream env (joinPath cfg.imagePath "root.zfs.xz") cfg.zpoolName =
        (.ok (), t4) →
      copyEFIPartition env (joinPath cfg.imagePath "efi.img") (cfg.targetDisk ++ "p1") =
        (.error e, t) →
      Install env cfg =
        (.error ("EFI partition installation failed: " ++ e),
         t1 ++ t2 ++ t3 ++ t4 ++ t)) ∧
    (∀ t1 t2 t3 t4 t5 e t, partitionDisk env cfg.targetDisk = (.ok (), t1) →
      createEFIFilesystem env (cfg.targetDisk ++ "p1") = (.ok (), t2) →
      createZFSPool env cfg.zpoolName (cfg.targetDisk ++ "p2") = (.ok (), t3) →
      extractZFSStream env (joinPath cfg.imagePath "root.zfs.xz") cfg.zpoolName =
        (.ok (), t4) →
      copyEFIPartition env (joinPath cfg.imagePath "efi.img") (cfg.targetDisk ++ "p1") =
        (.ok (), t5) →
      installBootloader env cfg.targetDisk = (.error e, t) →
      Install env cfg =
        (.error ("bootloader installation failed: " ++ e ++ hintBootloader),
         t1 ++ t2 ++ t3 ++ t4 ++ t5 ++ t)) ∧
    (∀ t1 t2 t3 t4 t5 t6 e t, partitionDisk env cfg.targetDisk = (.ok (), t1) →
      createEFIFilesystem env (cfg.targetDisk ++ "p1") = (.ok (), t2) →
      createZFSPool env cfg.zpoolName (cfg.targetDisk ++ "p2") = (.ok (), t3) →
      extractZFSStream env (joinPath cfg.imagePath "root.zfs.xz") cfg.zpoolName =
        (.ok (), t4) →
      copyEFIPartition env (joinPath cfg.imagePath "efi.img") (cfg.targetDisk ++ "p1") =
        (.ok (), t5) →
      installBootloader env cfg.targetDisk = (.ok (), t6) →
      finalizeInstallation env cfg.zpoolName = (.error e, t) →
      Install env cfg =
        (.error ("installation finalization failed: " ++ e),
         t1 ++ t2 ++ t3 ++ t4 ++ t5 ++ t6 ++ t)) := by
  have hv : validateConfig env cfg = .ok () :=
    validateConfig_ok_of env cfg h1 h2 h3 h4 h5 h6 h7
  have hr : (checkRequirements env).1 = .ok () := checkRequirements_ok_of env h8 h9
  have hI : Install env cfg = installStages env cfg := Install_eq_installStages env cfg hv hr
  refine ⟨fun hall hpipe hsr hsx => ?_, fun e t hp => ?_, fun t1 e t hp he => ?_,
    fun t1 t2 e t hp he hz => ?_, fun t1 t2 t3 e t hp he hz hx => ?_,
    fun t1 t2 t3 t4 e t hp he hz hx hc => ?_,
    fun t1 t2 t3 t4 t5 e t hp he hz hx hc hb => ?_,
    fun t1 t2 t3 t4 t5 t6 e t hp he hz hx hc hb hf => ?_⟩
  · have c1 : env.cmdOk (gpartCreateCmd cfg.targetDisk) = true :=
      hall _ (by simp [successCmds])
    have c2 : env.cmdOk (gpartAddEfiCmd cfg.targetDisk) = true :=
      hall _ (by simp [successCmds])
    have c3 : env.cmdOk (gpartAddZfsCmd cfg.targetDisk) = true :=
      hall _ (by simp [successCmds])
    have c4 : env.cmdOk (newfsCmd (cfg.targetDisk ++ "p1")) = true :=
      hall _ (by simp [successCmds])
    have c5 : env.cmdOk (zpoolCreateCmd cfg.zpoolName (cfg.targetDisk ++ "p2")) = true :=
      hall _ (by simp [successCmds])
    have c6 : env.cmdOk (xzcatCmd (joinPath cfg.imagePath "root.zfs.xz")) = true :=
      hall _ (by simp [successCmds])
    have c7 : env.cmdOk (zfsRecvCmd cfg.zpoolName) = true :=
      hall _ (by simp [successCmds])
    have c8 : env.cmdOk (ddCmd (joinPath cfg.imagePath "efi.img")
        (cfg.targetDisk ++ "p1")) = true :=
      hall _ (by simp [successCmds])
    have c9 : env.cmdOk (bootcodeCmd cfg.targetDisk) = true :=
      hall _ (by simp [successCmds])
    have c10 : env.cmdOk (zpoolSetCmd cfg.zpoolName) = true :=
      hall _ (by simp [successCmds])
    have c11 : env.cmdOk (zpoolExportCmd cfg.zpoolName) = true :=
      hall _ (by simp [successCmds])
    have hstat1 : env.pathExists (joinPath cfg.imagePath "root.zfs.xz") = true :=
      h5 _ (by simp [requiredFiles])
    have hstat2 : env.pathExists (joinPath cfg.imagePath "efi.img") = true :=
      h5 _ (by simp [requiredFiles])
    rw [hI]
    simp only [installStages, partitionDisk_ok_eq env cfg.targetDisk c1 c2 c3,
      createEFIFilesystem_ok env _ c4, createZFSPool_ok env _ _ c5,
      extractZFSStream_ok env _ _ hstat1 hpipe hsr hsx c6 c7,
      copyEFIPartition_ok env _ _ hstat2 c8, installBootloader_ok env _ c9,
      finalizeInstallation_ok env _ c10 c11]
    rfl
  · rw [hI]; simp only [installStages, hp]
  · rw [hI]; simp only [installStages, hp, he]
  · rw [hI]; simp only [installStages, hp, he, hz]
  · rw [hI]; simp only [installStages, hp, he, hz, hx]
  · rw [hI]; simp only [installStages, hp, he, hz, hx, hc]
  · rw [hI]; simp only [installStages, hp, he, hz, hx, hc, hb]
  · rw [hI]; simp only [installStages, hp, he, hz, hx, hc, hb, hf]

/-- Witness for C1, Scenario A: in `happyEnv` with the Scenario A
configuration, `Install` succeeds with the full ordered trace. -/
theorem Install_stage_order_witness :
    Install happyEnv cfgA = (.ok (), fullSuccessTrace cfgA) :=
  (Install_stage_order happyEnv cfgA (by decide) (by decide) (by decide) (by decide)
      (by decide) (by decide) (by decide) (by decide) rfl).1
    (fun c _ => rfl) rfl rfl rfl

end PGSDBuild
